import Mathlib

/-!
# Verification of the amber-cli API client

Shallow embedding of the Rust sources `src/rest_client.rs`, `src/main.rs`
and `src/app_config.rs` of the amber-cli repository (a command-line client
for an electricity-pricing REST API), together with theorems settling the
specification claims about it.

Modelling conventions:
* JSON values are the inductive `Json`.  JSON numbers are modelled as
  integers (`Int`): no claim exercises fractional numeric values, so the
  embedding covers the integral fragment of JSON; the Rust `f32` fields are
  correspondingly modelled as integer-valued.
* `iso8601_timestamp::Timestamp` (de)serializes through its ISO-8601 string
  form; the embedding keeps that string.  Format validation of the string is
  not modelled (no claim depends on it); round-tripping a decoded value is
  the identity in both the model and the library.
* serde's derived `Deserialize`: a struct decodes from a JSON object by
  looking up each (possibly renamed) field key; unknown keys are ignored
  (no `deny_unknown_fields`), a missing or ill-typed required key is an
  error, `u8` rejects numbers outside `0..=255`.  serde's derived
  `Serialize` emits the fields in declaration order under their renamed
  keys.
* The HTTP transport (`reqwest`) is an oracle `Net` mapping a request to
  `none` (transport failure) or `some` response; a response is a status
  code and a raw body string.  `Response::json::<T>()` is "parse the body,
  then decode at `T`"; `Response::text()` is the raw body.
-/

/-- JSON values (numbers restricted to integers, strings escape-free). -/
inductive Json where
  | null : Json
  | bool (b : Bool) : Json
  | num (n : Int) : Json
  | str (s : String) : Json
  | arr (elems : List Json) : Json
  | obj (fields : List (String × Json)) : Json

/-- First-match lookup of a key in a JSON object's field list, as serde's
map visitor sees the entries. -/
def jLookup : List (String × Json) → String → Option Json
  | [], _ => none
  | (k, v) :: rest, key => if key = k then some v else jLookup rest key

/-- `iso8601_timestamp::Timestamp`, kept as its ISO-8601 string form. -/
structure Timestamp where
  iso : String
  deriving Repr, DecidableEq

/-- Decode a `Timestamp` field: the JSON value must be a string. -/
def decodeTs : Option Json → Option Timestamp
  | some (Json.str s) => some ⟨s⟩
  | _ => none

/-- Decode a `String` field. -/
def decodeStr : Option Json → Option String
  | some (Json.str s) => some s
  | _ => none

/-- Decode a `bool` field. -/
def decodeBool : Option Json → Option Bool
  | some (Json.bool b) => some b
  | _ => none

/-- Decode a Rust `u8` field: serde rejects JSON numbers outside 0..=255. -/
def decodeU8 : Option Json → Option Nat
  | some (Json.num n) => if 0 ≤ n ∧ n ≤ 255 then some n.toNat else none
  | _ => none

/-- Decode a Rust `f32` field (integer-valued in this embedding). -/
def decodeF32 : Option Json → Option Int
  | some (Json.num n) => some n
  | _ => none

/-- Sequence a list of optional values, failing if any element fails
(serde decodes a `Vec<T>` element by element). -/
def seqOpt : List (Option α) → Option (List α)
  | [] => some []
  | o :: rest => o.bind fun a => (seqOpt rest).map fun as => a :: as

/-- Decode a `Vec<T>` field from a JSON array. -/
def decodeArr (d : Json → Option α) : Json → Option (List α)
  | Json.arr xs => seqOpt (xs.map d)
  | _ => none

/-- `SiteChannels` (identical in `rest_client.rs` and `main.rs`): the JSON
key `type` is renamed to the record field `tariff_type`. -/
structure SiteChannels where
  identifier : String
  tariff : String
  tariff_type : String
  deriving Repr, DecidableEq

/-- `SiteDetails` (identical in `rest_client.rs` and `main.rs`);
`rename_all = "camelCase"` maps `active_from` to the JSON key
`activeFrom`. -/
structure SiteDetails where
  active_from : Timestamp
  channels : List SiteChannels
  id : String
  network : String
  nmi : String
  status : String
  deriving Repr, DecidableEq

/-- `TariffInformation`. -/
structure TariffInformation where
  period : String
  deriving Repr, DecidableEq

/-- `CurrentPrices`: JSON key `type` renamed to `interval_type`, camelCase
keys for the rest; `duration` is a Rust `u8`. -/
structure CurrentPrices where
  interval_type : String
  date : Timestamp
  duration : Nat
  start_time : Timestamp
  end_time : Timestamp
  nem_time : Timestamp
  per_kwh : Int
  renewables : Int
  spot_per_kwh : Int
  channel_type : String
  spike_status : String
  tariff_information : TariffInformation
  descriptor : String
  estimate : Bool
  deriving Repr, DecidableEq

/-- `CurrentUsage`: JSON key `type` renamed to `price_type`; `duration` is
a Rust `u8`. -/
structure CurrentUsage where
  price_type : String
  duration : Nat
  date : Timestamp
  end_time : Timestamp
  quality : String
  kwh : Int
  nem_time : Timestamp
  per_kwh : Int
  channel_type : String
  channel_identifier : String
  cost : Int
  renewables : Int
  spot_per_kwh : Int
  start_time : Timestamp
  spike_status : String
  tariff_information : TariffInformation
  descriptor : String
  deriving Repr, DecidableEq

/-- Decode one `SiteChannels` object. -/
def decodeSiteChannels : Json → Option SiteChannels
  | Json.obj fs =>
    match decodeStr (jLookup fs "identifier"), decodeStr (jLookup fs "tariff"),
        decodeStr (jLookup fs "type") with
    | some i, some t, some ty => some ⟨i, t, ty⟩
    | _, _, _ => none
  | _ => none

/-- The JSON keys of the `SiteDetails` schema (after renaming). -/
def siteDetailsKeys : List String :=
  ["activeFrom", "channels", "id", "network", "nmi", "status"]

/-- Decode `SiteDetails` from the six looked-up field values.  Succeeds
exactly when every required field is present and well-typed; serde has no
defaulting, so nothing is filled in for a missing field. -/
def decodeSiteFields (oActiveFrom oChannels oId oNetwork oNmi oStatus :
    Option Json) : Option SiteDetails :=
  match decodeTs oActiveFrom, oChannels.bind (decodeArr decodeSiteChannels),
      decodeStr oId, decodeStr oNetwork, decodeStr oNmi, decodeStr oStatus with
  | some a, some c, some i, some n, some m, some s =>
    some ⟨a, c, i, n, m, s⟩
  | _, _, _, _, _, _ => none

/-- Decode one `SiteDetails` object: look up the six renamed keys and
combine; unknown keys are never consulted. -/
def decodeSiteDetails : Json → Option SiteDetails
  | Json.obj fs =>
    decodeSiteFields (jLookup fs "activeFrom") (jLookup fs "channels")
      (jLookup fs "id") (jLookup fs "network") (jLookup fs "nmi")
      (jLookup fs "status")
  | _ => none

/-- Decode `Vec<SiteDetails>` from a JSON array. -/
def decodeSiteDetailsVec : Json → Option (List SiteDetails) :=
  decodeArr decodeSiteDetails

/-- Serialize one `SiteChannels`: fields in declaration order,
`tariff_type` written back under the JSON key `type`. -/
def encodeSiteChannels (c : SiteChannels) : Json :=
  Json.obj [("identifier", Json.str c.identifier),
            ("tariff", Json.str c.tariff),
            ("type", Json.str c.tariff_type)]

/-- Serialize one `SiteDetails`: fields in declaration order under their
camelCase keys. -/
def encodeSiteDetails (s : SiteDetails) : Json :=
  Json.obj [("activeFrom", Json.str s.active_from.iso),
            ("channels", Json.arr (s.channels.map encodeSiteChannels)),
            ("id", Json.str s.id),
            ("network", Json.str s.network),
            ("nmi", Json.str s.nmi),
            ("status", Json.str s.status)]

/-- Serialize `Vec<SiteDetails>` as a JSON array. -/
def encodeSiteDetailsVec (l : List SiteDetails) : Json :=
  Json.arr (l.map encodeSiteDetails)

/-- Decode `TariffInformation`. -/
def decodeTariffInformation : Json → Option TariffInformation
  | Json.obj fs =>
    match decodeStr (jLookup fs "period") with
    | some p => some ⟨p⟩
    | none => none
  | _ => none

/-- Decode one `CurrentPrices` object (the `duration` column is tested
first; `Option` combination is order-independent, so this is the same
function of the field values as serde's visitor). -/
def decodeCurrentPrices : Json → Option CurrentPrices
  | Json.obj fs =>
    match decodeU8 (jLookup fs "duration"),
        decodeStr (jLookup fs "type"), decodeTs (jLookup fs "date"),
        decodeTs (jLookup fs "startTime"), decodeTs (jLookup fs "endTime"),
        decodeTs (jLookup fs "nemTime"), decodeF32 (jLookup fs "perKwh"),
        decodeF32 (jLookup fs "renewables"),
        decodeF32 (jLookup fs "spotPerKwh"),
        decodeStr (jLookup fs "channelType"),
        decodeStr (jLookup fs "spikeStatus"),
        (jLookup fs "tariffInformation").bind decodeTariffInformation,
        decodeStr (jLookup fs "descriptor"),
        decodeBool (jLookup fs "estimate") with
    | some du, some ty, some da, some st, some et, some nt, some pk,
        some re, some sp, some ct, some ss, some ti, some de, some es =>
      some { interval_type := ty, date := da, duration := du,
             start_time := st, end_time := et, nem_time := nt,
             per_kwh := pk, renewables := re, spot_per_kwh := sp,
             channel_type := ct, spike_status := ss,
             tariff_information := ti, descriptor := de, estimate := es }
    | _, _, _, _, _, _, _, _, _, _, _, _, _, _ => none
  | _ => none

/-- Decode `Vec<CurrentPrices>`. -/
def decodeCurrentPricesVec : Json → Option (List CurrentPrices) :=
  decodeArr decodeCurrentPrices

/-- Decode one `CurrentUsage` object (`duration` column first, as above). -/
def decodeCurrentUsage : Json → Option CurrentUsage
  | Json.obj fs =>
    match decodeU8 (jLookup fs "duration"),
        decodeStr (jLookup fs "type"), decodeTs (jLookup fs "date"),
        decodeTs (jLookup fs "endTime"), decodeStr (jLookup fs "quality"),
        decodeF32 (jLookup fs "kwh"), decodeTs (jLookup fs "nemTime"),
        decodeF32 (jLookup fs "perKwh"),
        decodeStr (jLookup fs "channelType"),
        decodeStr (jLookup fs "channelIdentifier"),
        decodeF32 (jLookup fs "cost"), decodeF32 (jLookup fs "renewables"),
        decodeF32 (jLookup fs "spotPerKwh"),
        decodeTs (jLookup fs "startTime"),
        decodeStr (jLookup fs "spikeStatus"),
        (jLookup fs "tariffInformation").bind decodeTariffInformation,
        decodeStr (jLookup fs "descriptor") with
    | some du, some ty, some da, some et, some qu, some kw, some nt,
        some pk, some ct, some ci, some co, some re, some sp, some st,
        some ss, some ti, some de =>
      some { price_type := ty, duration := du, date := da, end_time := et,
             quality := qu, kwh := kw, nem_time := nt, per_kwh := pk,
             channel_type := ct, channel_identifier := ci, cost := co,
             renewables := re, spot_per_kwh := sp, start_time := st,
             spike_status := ss, tariff_information := ti,
             descriptor := de }
    | _, _, _, _, _, _, _, _, _, _, _, _, _, _, _, _, _ => none
  | _ => none

/-- Decode `Vec<CurrentUsage>`. -/
def decodeCurrentUsageVec : Json → Option (List CurrentUsage) :=
  decodeArr decodeCurrentUsage

/-! ## A JSON text parser

`reqwest::Response::json::<T>()` reads the raw body text and parses it with
`serde_json` before decoding at `T`.  The parser below covers the fragment
the embedding uses (no escape sequences in strings, integer numbers); it is
strict about trailing input, as `serde_json::from_slice` is. -/

/-- Drop leading JSON whitespace. -/
def skipWs : List Char → List Char
  | c :: rest =>
    if c = ' ' ∨ c = '\n' ∨ c = '\t' ∨ c = '\r' then skipWs rest
    else c :: rest
  | [] => []

/-- Read the characters of a string literal up to the closing quote. -/
def takeStringChars : List Char → Option (List Char × List Char)
  | [] => none
  | c :: rest =>
    if c = '"' then some ([], rest)
    else
      match takeStringChars rest with
      | some (cs, rem) => some (c :: cs, rem)
      | none => none

/-- Read a non-empty run of decimal digits as a natural number. -/
def takeDigits : List Char → Nat → Option (Nat × List Char)
  | c :: rest, acc =>
    if c.isDigit then
      match takeDigits rest (acc * 10 + (c.toNat - '0'.toNat)) with
      | some r => some r
      | none => some (acc * 10 + (c.toNat - '0'.toNat), rest)
    else none
  | [], _ => none

/-- Read a (possibly negated) integer literal. -/
def takeInt : List Char → Option (Int × List Char)
  | '-' :: rest =>
    match takeDigits rest 0 with
    | some (n, rem) => some (-(n : Int), rem)
    | none => none
  | cs =>
    match takeDigits cs 0 with
    | some (n, rem) => some ((n : Int), rem)
    | none => none

/-- Test for a literal keyword prefix (`null`, `true`, `false`). -/
def dropPrefixChars : List Char → List Char → Option (List Char)
  | [], cs => some cs
  | p :: ps, c :: cs => if c = p then dropPrefixChars ps cs else none
  | _ :: _, [] => none

mutual

/-- Parse one JSON value; `fuel` bounds the recursion. -/
def parseVal : Nat → List Char → Option (Json × List Char)
  | 0, _ => none
  | fuel + 1, cs =>
    match skipWs cs with
    | [] => none
    | c :: rest =>
      if c = 'n' then
        match dropPrefixChars ['u', 'l', 'l'] rest with
        | some rem => some (Json.null, rem)
        | none => none
      else if c = 't' then
        match dropPrefixChars ['r', 'u', 'e'] rest with
        | some rem => some (Json.bool true, rem)
        | none => none
      else if c = 'f' then
        match dropPrefixChars ['a', 'l', 's', 'e'] rest with
        | some rem => some (Json.bool false, rem)
        | none => none
      else if c = '"' then
        match takeStringChars rest with
        | some (cs, rem) => some (Json.str (String.mk cs), rem)
        | none => none
      else if c = '[' then
        match skipWs rest with
        | ']' :: rem => some (Json.arr [], rem)
        | rest2 =>
          match parseArrItems fuel rest2 with
          | some (xs, rem) => some (Json.arr xs, rem)
          | none => none
      else if c = '\x7b' then
        match skipWs rest with
        | '\x7d' :: rem => some (Json.obj [], rem)
        | rest2 =>
          match parseObjItems fuel rest2 with
          | some (fs, rem) => some (Json.obj fs, rem)
          | none => none
      else
        match takeInt (c :: rest) with
        | some (n, rem) => some (Json.num n, rem)
        | none => none

/-- Parse the comma-separated items of a non-empty array, including the
closing bracket. -/
def parseArrItems : Nat → List Char → Option (List Json × List Char)
  | 0, _ => none
  | fuel + 1, cs =>
    match parseVal fuel cs with
    | some (j, rem) =>
      match skipWs rem with
      | ',' :: rem2 =>
        match parseArrItems fuel rem2 with
        | some (xs, rem3) => some (j :: xs, rem3)
        | none => none
      | ']' :: rem2 => some ([j], rem2)
      | _ => none
    | none => none

/-- Parse the comma-separated members of a non-empty object, including the
closing brace. -/
def parseObjItems : Nat → List Char → Option (List (String × Json) × List Char)
  | 0, _ => none
  | fuel + 1, cs =>
    match skipWs cs with
    | '"' :: rest =>
      match takeStringChars rest with
      | some (kcs, rem) =>
        match skipWs rem with
        | ':' :: rem2 =>
          match parseVal fuel rem2 with
          | some (j, rem3) =>
            match skipWs rem3 with
            | ',' :: rem4 =>
              match parseObjItems fuel rem4 with
              | some (fs, rem5) => some ((String.mk kcs, j) :: fs, rem5)
              | none => none
            | '\x7d' :: rem4 => some ([(String.mk kcs, j)], rem4)
            | _ => none
          | none => none
        | _ => none
      | none => none
    | _ => none

end

/-- `serde_json` top-level parse: one value, then only whitespace. -/
def parseJson (s : String) : Option Json :=
  match parseVal (s.length + 1) s.toList with
  | some (j, rem) =>
    match skipWs rem with
    | [] => some j
    | _ :: _ => none
  | none => none

/-! ## HTTP client model (`src/rest_client.rs`)

`RestClient` holds a full request URL, the bearer token, and a `reqwest`
transport handle (a connection pool carrying no request state, modelled as
`Unit`).  Each fetch builds one GET request and performs one round trip
through the network oracle. -/

/-- An outgoing HTTP GET request: the URL and the explicitly set headers,
as literal (name, value) strings. -/
structure Request where
  url : String
  headers : List (String × String)
  deriving Repr, DecidableEq

/-- An HTTP response: numeric status code and raw body text. -/
structure HttpResponse where
  status : Nat
  body : String

/-- The network: `none` is a transport failure (DNS/TLS/reset), `some` a
delivered response. -/
def Net : Type := Request → Option HttpResponse

/-- The two kinds of `reqwest::Error` the program can hit: a transport
failure from `send()`, or a body-decode failure from `Response::json()`
(which carries the undecodable body here for diagnostics). -/
inductive ReqwestErr where
  | transport (url : String) : ReqwestErr
  | decode (body : String) : ReqwestErr
  deriving Repr, DecidableEq

/-- The `Error` enum of `rest_client.rs`.  `SerdeJsonError` exists in the
source but no code path constructs it (`Response::json` failures surface as
`reqwest::Error`, converted by `#[from]` into `ReqwestError`). -/
inductive Error where
  | ReqwestError (e : ReqwestErr) : Error
  | SerdeJsonError (msg : String) : Error
  | HttpNon200Status (status_code : String) (body : String) : Error
  deriving Repr, DecidableEq

/-- The `RestClient` struct: request URL, bearer token, transport handle. -/
structure RestClient where
  url : String
  auth_token : String
  client : Unit
  deriving Repr, DecidableEq

/-- `RestClient::new_client`. -/
def RestClient.new_client (url auth_token : String) : RestClient :=
  { url := url, auth_token := auth_token, client := () }

/-- The GET request every fetch operation builds: the client's URL and the
three `.header(...)` calls with their literal header-name strings
(`"AUTHORIZATION"`, `"CONTENT_TYPE"`, `"ACCEPT"`). -/
def buildRequest (self : RestClient) : Request :=
  { url := self.url,
    headers := [("AUTHORIZATION", "Bearer " ++ self.auth_token),
                ("CONTENT_TYPE", "application/json"),
                ("ACCEPT", "application/json")] }

/-- ASCII case folding of a header name: the code points with uppercase
letters folded to lowercase. -/
def headerFold (s : String) : List Nat :=
  s.data.map fun c => if 65 ≤ c.toNat ∧ c.toNat ≤ 90 then c.toNat + 32 else c.toNat

/-- HTTP header names compare case-insensitively (RFC 9110). -/
def headerNameEq (a b : String) : Prop := headerFold a = headerFold b

instance (a b : String) : Decidable (headerNameEq a b) := by
  unfold headerNameEq; infer_instance

/-- `Display` for `reqwest::StatusCode`: the code, then the canonical
reason phrase when one is known. -/
def statusDisplay (n : Nat) : String :=
  toString n ++
    match n with
    | 200 => " OK"
    | 201 => " Created"
    | 301 => " Moved Permanently"
    | 302 => " Found"
    | 400 => " Bad Request"
    | 401 => " Unauthorized"
    | 403 => " Forbidden"
    | 404 => " Not Found"
    | 500 => " Internal Server Error"
    | 503 => " Service Unavailable"
    | _ => ""

/-- `RestClient::get_site_data` (rest_client.rs:104-128): send the request;
`?` turns a transport failure into `ReqwestError`; on status 200 decode the
body as `Vec<SiteDetails>` (a failure there is a `reqwest` decode error,
also `ReqwestError` via `?`); on any other status return
`HttpNon200Status` with the displayed status and the raw body text. -/
def RestClient.get_site_data (self : RestClient) (net : Net) :
    RestClient × Except Error (List SiteDetails) :=
  match net (buildRequest self) with
  | none => (self, Except.error (Error.ReqwestError (ReqwestErr.transport self.url)))
  | some response =>
    if response.status = 200 then
      match (parseJson response.body).bind decodeSiteDetailsVec with
      | some v => (self, Except.ok v)
      | none => (self, Except.error (Error.ReqwestError (ReqwestErr.decode response.body)))
    else
      (self, Except.error (Error.HttpNon200Status (statusDisplay response.status)
        response.body))

/-- `RestClient::get_current_price_data` (rest_client.rs:130-145): send,
then decode the body as `Vec<CurrentPrices>` unconditionally — the status
code is never inspected. -/
def RestClient.get_current_price_data (self : RestClient) (net : Net) :
    RestClient × Except Error (List CurrentPrices) :=
  match net (buildRequest self) with
  | none => (self, Except.error (Error.ReqwestError (ReqwestErr.transport self.url)))
  | some response =>
    match (parseJson response.body).bind decodeCurrentPricesVec with
    | some v => (self, Except.ok v)
    | none => (self, Except.error (Error.ReqwestError (ReqwestErr.decode response.body)))

/-- `RestClient::get_usage_data` (rest_client.rs:147-162): send, then
decode the body as `Vec<CurrentUsage>` unconditionally — the status code
is never inspected. -/
def RestClient.get_usage_data (self : RestClient) (net : Net) :
    RestClient × Except Error (List CurrentUsage) :=
  match net (buildRequest self) with
  | none => (self, Except.error (Error.ReqwestError (ReqwestErr.transport self.url)))
  | some response =>
    match (parseJson response.body).bind decodeCurrentUsageVec with
    | some v => (self, Except.ok v)
    | none => (self, Except.error (Error.ReqwestError (ReqwestErr.decode response.body)))

/-! ## Orchestration (`src/main.rs`)

`main.rs` redefines the same structs and an inline `RestClient` whose
`get_site_data` (main.rs:95-110) decodes unconditionally, without the
status branch of the library version; its price and usage fetches are
textually identical to the library ones. -/

/-- The inline `get_site_data` of `main.rs`: no status-code branch. -/
def mainGetSiteData (self : RestClient) (net : Net) :
    RestClient × Except Error (List SiteDetails) :=
  match net (buildRequest self) with
  | none => (self, Except.error (Error.ReqwestError (ReqwestErr.transport self.url)))
  | some response =>
    match (parseJson response.body).bind decodeSiteDetailsVec with
    | some v => (self, Except.ok v)
    | none => (self, Except.error (Error.ReqwestError (ReqwestErr.decode response.body)))

/-- The sites URL built in main.rs:153. -/
def sites_url (base_url : String) : String := base_url ++ "/sites"

/-- The current-price URL built in main.rs:167-170 by
`format!("{}/sites/{}/prices/current?&resolution=30", base_url, site_id)`
(note the `&` directly after the `?`). -/
def current_price_url (base_url site_id : String) : String :=
  base_url ++ "/sites/" ++ site_id ++ "/prices/current?&resolution=30"

/-- The usage URL built in main.rs:182-185 by
`format!("{}/sites/{}/usage?startDate=2023-09-12&endDate=2023-09-13&resolution=30'", ...)`:
both dates are hardcoded literals and the format string ends in a stray
apostrophe (written `\x27` here). -/
def usage_data_url (base_url site_id : String) : String :=
  base_url ++ "/sites/" ++ site_id ++
    "/usage?startDate=2023-09-12&endDate=2023-09-13&resolution=30\x27"

/-- Outcome of running `main` past config loading: normal exit, an error
returned through `?`, or a process abort from `.expect(...)` on a missing
first element. -/
inductive MainOutcome where
  | ok : MainOutcome
  | error (e : Error) : MainOutcome
  | panic (msg : String) : MainOutcome
  deriving Repr, DecidableEq

/-- The body of `main` (main.rs:147-209) after config loading: fetch
sites, take the first site (aborting via `expect` when the array is
empty), fetch current prices, take the first price window (same `expect`),
fetch usage, print.  Returns the list of HTTP requests issued, in order,
together with the outcome. -/
def runMain (net : Net) (base_url auth_token : String) :
    List Request × MainOutcome :=
  let user_site_details := RestClient.new_client (sites_url base_url) auth_token
  let trace1 := [buildRequest user_site_details]
  match (mainGetSiteData user_site_details net).2 with
  | Except.error e => (trace1, MainOutcome.error e)
  | Except.ok user_site_data =>
    match user_site_data.get? 0 with
    | none => (trace1, MainOutcome.panic "Malformed array/invalid index[0]")
    | some first_site =>
      let site_id := first_site.id
      let current_price_details :=
        RestClient.new_client (current_price_url base_url site_id) auth_token
      let trace2 := trace1 ++ [buildRequest current_price_details]
      match (current_price_details.get_current_price_data net).2 with
      | Except.error e => (trace2, MainOutcome.error e)
      | Except.ok current_price_data =>
        match current_price_data.get? 0 with
        | none => (trace2, MainOutcome.panic "Malformed array/invalid index[0]")
        | some _ =>
          let usage_details :=
            RestClient.new_client (usage_data_url base_url site_id) auth_token
          let trace3 := trace2 ++ [buildRequest usage_details]
          match (usage_details.get_usage_data net).2 with
          | Except.error e => (trace3, MainOutcome.error e)
          | Except.ok _ => (trace3, MainOutcome.ok)

/-! ## Concrete sample inputs used by the witnesses and counterexamples -/

/-- A sites response body: one site with one channel (braces written with
escapes). -/
def sampleSiteBody : String :=
  "[\x7b\"activeFrom\":\"2021-01-01T00:00:00Z\",\"channels\":[\x7b\"identifier\":\"E1\",\"tariff\":\"A100\",\"type\":\"general\"\x7d],\"id\":\"01FG2K6V5JZ37FEJX8Y1KP8YV\",\"network\":\"Jemena\",\"nmi\":\"12345\",\"status\":\"active\"\x7d]"

/-- The record `sampleSiteBody` decodes to. -/
def sampleSite : SiteDetails :=
  { active_from := ⟨"2021-01-01T00:00:00Z"⟩,
    channels := [⟨"E1", "A100", "general"⟩],
    id := "01FG2K6V5JZ37FEJX8Y1KP8YV",
    network := "Jemena",
    nmi := "12345",
    status := "active" }

/-- A network where the sites endpoint answers 200 with one site and every
other request fails at the transport. -/
def netSitesOnly : Net := fun r =>
  if r.url = "B/sites" then some ⟨200, sampleSiteBody⟩ else none

/-- A network where the sites endpoint answers 200 with the empty array. -/
def netEmptySites : Net := fun r =>
  if r.url = "B/sites" then some ⟨200, "[]"⟩ else none

/-- A network answering every request with status 404 and a non-JSON body. -/
def net404 : Net := fun _ => some ⟨404, "Not found"⟩

/-- A client with placeholder URL and token. -/
def sampleClient : RestClient := RestClient.new_client "U" "tok"

/-- A complete, well-typed `SiteDetails` object field list (channel array
empty). -/
def sampleSiteFields : List (String × Json) :=
  [("activeFrom", Json.str "2021-01-01"), ("channels", Json.arr []),
   ("id", Json.str "A"), ("network", Json.str "N"),
   ("nmi", Json.str "M"), ("status", Json.str "ok")]

/-- A sites JSON array value with one record, used at the Json level. -/
def sampleSitesJson : Json := Json.arr [Json.obj sampleSiteFields]

/-- The record list `sampleSitesJson` decodes to. -/
def sampleSitesDecoded : List SiteDetails :=
  [{ active_from := ⟨"2021-01-01"⟩, channels := [], id := "A",
     network := "N", nmi := "M", status := "ok" }]

/-! ## Helper lemmas -/

/-- Element-wise identity decoders round-trip through `seqOpt`. -/
theorem seqOpt_map_some (f : α → Option α) (l : List α)
    (h : ∀ x, f x = some x) : seqOpt (l.map f) = some l := by
  induction l with
  | nil => rfl
  | cons x xs ih => simp [seqOpt, h x, ih]

/-- Channel records survive an encode/decode round trip, the `type` key
included. -/
theorem decode_encode_siteChannels (c : SiteChannels) :
    decodeSiteChannels (encodeSiteChannels c) = some c := by
  rfl

/-- Site records survive an encode/decode round trip. -/
theorem decode_encode_siteDetails (s : SiteDetails) :
    decodeSiteDetails (encodeSiteDetails s) = some s := by
  cases s with
  | mk af ch i n m st =>
    have h2 : decodeArr decodeSiteChannels
        (Json.arr (ch.map encodeSiteChannels)) = some ch := by
      have : decodeArr decodeSiteChannels
          (Json.arr (ch.map encodeSiteChannels)) =
          seqOpt ((ch.map encodeSiteChannels).map decodeSiteChannels) := rfl
      rw [this, List.map_map]
      exact seqOpt_map_some _ ch (fun c => decode_encode_siteChannels c)
    simp [decodeSiteDetails, encodeSiteDetails, decodeSiteFields, jLookup,
      decodeTs, decodeStr, h2]

/-- Site record lists survive an encode/decode round trip. -/
theorem decode_encode_siteDetailsVec (l : List SiteDetails) :
    decodeSiteDetailsVec (encodeSiteDetailsVec l) = some l := by
  have : decodeSiteDetailsVec (encodeSiteDetailsVec l) =
      seqOpt ((l.map encodeSiteDetails).map decodeSiteDetails) := rfl
  rw [this, List.map_map]
  exact seqOpt_map_some _ l (fun s => decode_encode_siteDetails s)

/-- Inserting a field with a different key anywhere in an object leaves
every other lookup unchanged. -/
theorem jLookup_insert_ne (fs₁ fs₂ : List (String × Json)) (k k' : String)
    (v : Json) (h : k' ≠ k) :
    jLookup (fs₁ ++ (k, v) :: fs₂) k' = jLookup (fs₁ ++ fs₂) k' := by
  induction fs₁ with
  | nil => simp [jLookup, h]
  | cons p fs ih =>
    cases p with
    | mk a b => simp only [List.cons_append, jLookup, List.append_eq]; rw [ih]

/-- An ill-typed or missing `activeFrom` fails the whole record. -/
theorem decodeSiteFields_none₁ (o2 o3 o4 o5 o6 : Option Json) :
    decodeSiteFields none o2 o3 o4 o5 o6 = none := rfl

/-- An ill-typed or missing `channels` fails the whole record. -/
theorem decodeSiteFields_none₂ (o1 o3 o4 o5 o6 : Option Json) :
    decodeSiteFields o1 none o3 o4 o5 o6 = none := by
  unfold decodeSiteFields
  cases decodeTs o1 <;> rfl

/-- An ill-typed or missing `id` fails the whole record. -/
theorem decodeSiteFields_none₃ (o1 o2 o4 o5 o6 : Option Json) :
    decodeSiteFields o1 o2 none o4 o5 o6 = none := by
  unfold decodeSiteFields
  cases decodeTs o1 <;> cases o2.bind (decodeArr decodeSiteChannels) <;> rfl

/-- An ill-typed or missing `network` fails the whole record. -/
theorem decodeSiteFields_none₄ (o1 o2 o3 o5 o6 : Option Json) :
    decodeSiteFields o1 o2 o3 none o5 o6 = none := by
  unfold decodeSiteFields
  cases decodeTs o1 <;> cases o2.bind (decodeArr decodeSiteChannels) <;>
    cases decodeStr o3 <;> rfl

/-- An ill-typed or missing `nmi` fails the whole record. -/
theorem decodeSiteFields_none₅ (o1 o2 o3 o4 o6 : Option Json) :
    decodeSiteFields o1 o2 o3 o4 none o6 = none := by
  unfold decodeSiteFields
  cases decodeTs o1 <;> cases o2.bind (decodeArr decodeSiteChannels) <;>
    cases decodeStr o3 <;> cases decodeStr o4 <;> rfl

/-- An ill-typed or missing `status` fails the whole record. -/
theorem decodeSiteFields_none₆ (o1 o2 o3 o4 o5 : Option Json) :
    decodeSiteFields o1 o2 o3 o4 o5 none = none := by
  unfold decodeSiteFields
  cases decodeTs o1 <;> cases o2.bind (decodeArr decodeSiteChannels) <;>
    cases decodeStr o3 <;> cases decodeStr o4 <;> cases decodeStr o5 <;> rfl

/-! ## Claims -/

/-- C1: the claim says all three fetches map a status ≥ 300 to the status
error with the verbatim body.  At a 404 with body "Not found",
`get_site_data` does return `HttpNon200Status "404 Not Found" "Not found"`,
but `get_current_price_data` and `get_usage_data` never inspect the status:
they attempt JSON decoding of the body and surface a decode-kind
`ReqwestError` instead. -/
theorem c1_non200_handling_at_404 :
    sampleClient.get_site_data net404 =
      (sampleClient,
       Except.error (Error.HttpNon200Status "404 Not Found" "Not found")) ∧
    sampleClient.get_current_price_data net404 =
      (sampleClient,
       Except.error (Error.ReqwestError (ReqwestErr.decode "Not found"))) ∧
    sampleClient.get_usage_data net404 =
      (sampleClient,
       Except.error (Error.ReqwestError (ReqwestErr.decode "Not found"))) :=
  ⟨rfl, rfl, rfl⟩

/-- C2: when the sites endpoint returns `[]`, `main` does not surface any
named error: it aborts through `.get(0).expect("Malformed array/invalid
index[0]")` after the fetch succeeds with the empty list. -/
theorem c2_empty_sites_aborts_via_expect :
    runMain netEmptySites "B" "T" =
      ([buildRequest (RestClient.new_client "B/sites" "T")],
       MainOutcome.panic "Malformed array/invalid index[0]") := rfl

/-- C3 counterexample: at the sample site identifier, the constructed URL
is not `{baseUrl}/sites/{s}/prices/current?resolution=30` — the format
string puts a stray `&` right after the `?`. -/
theorem c3_counterexample :
    current_price_url "https://api.amber.com.au/v1" "01FG2K6V5JZ37FEJX8Y1KP8YV" ≠
      "https://api.amber.com.au/v1/sites/01FG2K6V5JZ37FEJX8Y1KP8YV/prices/current?resolution=30" := by
  decide

/-- C3 amended: for every base URL and site identifier the current-prices
URL is `{baseUrl}/sites/{s}/prices/current?&resolution=30` — identical to
the claimed URL except for the stray `&` between `?` and `resolution=30`. -/
theorem c3_amended (base_url site_id : String) :
    current_price_url base_url site_id =
      base_url ++ "/sites/" ++ site_id ++ "/prices/current?&resolution=30" := rfl

/-- C4 counterexample: even at the dates the binary hardcodes, the usage
URL is not `{baseUrl}/sites/{siteId}/usage?startDate={startDate}&endDate={endDate}&resolution=30`:
the format string ends in a stray apostrophe. -/
theorem c4_counterexample :
    usage_data_url "B" "S" ≠
      "B/sites/S/usage?startDate=2023-09-12&endDate=2023-09-13&resolution=30" := by
  decide

/-- C4 amended: the usage fetch takes no date parameters; `main` always
uses the hardcoded `startDate=2023-09-12` and `endDate=2023-09-13`, and the
URL carries a trailing apostrophe after `resolution=30`. -/
theorem c4_amended (base_url site_id : String) :
    usage_data_url base_url site_id =
      base_url ++ "/sites/" ++ site_id ++
        "/usage?startDate=2023-09-12&endDate=2023-09-13&resolution=30\x27" := rfl

/-- C5: any JSON array that decodes as `Vec<SiteDetails>` re-encodes to a
JSON value that decodes back to the very same records, and each channel
record round-trips through the renamed `type` key — no silent field
loss. -/
theorem c5_site_details_roundtrip (j : Json) (rs : List SiteDetails)
    (_h : decodeSiteDetailsVec j = some rs) :
    decodeSiteDetailsVec (encodeSiteDetailsVec rs) = some rs ∧
    ∀ c : SiteChannels, decodeSiteChannels (encodeSiteChannels c) = some c :=
  ⟨decode_encode_siteDetailsVec rs, decode_encode_siteChannels⟩

/-- C5 witness: a concrete one-site array decodes, and the theorem applies
to it. -/
theorem c5_witness :
    decodeSiteDetailsVec sampleSitesJson = some sampleSitesDecoded ∧
    decodeSiteDetailsVec (encodeSiteDetailsVec sampleSitesDecoded) =
      some sampleSitesDecoded :=
  ⟨rfl, (c5_site_details_roundtrip sampleSitesJson sampleSitesDecoded rfl).1⟩

/-- C6: decoding a `SiteDetails` object ignores a field with an unknown
key inserted at any position, and fails (no defaulting) whenever one of
the six required keys is absent. -/
theorem c6_unknown_ignored_missing_fails :
    (∀ (k : String) (v : Json) (fs₁ fs₂ : List (String × Json)),
        k ∉ siteDetailsKeys →
        decodeSiteDetails (Json.obj (fs₁ ++ (k, v) :: fs₂)) =
          decodeSiteDetails (Json.obj (fs₁ ++ fs₂))) ∧
    (∀ (fs : List (String × Json)) (k : String), k ∈ siteDetailsKeys →
        jLookup fs k = none → decodeSiteDetails (Json.obj fs) = none) := by
  constructor
  · intro k v fs₁ fs₂ hk
    simp only [siteDetailsKeys, List.mem_cons, List.not_mem_nil, or_false,
      not_or] at hk
    obtain ⟨h1, h2, h3, h4, h5, h6⟩ := hk
    simp only [decodeSiteDetails]
    rw [jLookup_insert_ne fs₁ fs₂ k "activeFrom" v (Ne.symm h1),
      jLookup_insert_ne fs₁ fs₂ k "channels" v (Ne.symm h2),
      jLookup_insert_ne fs₁ fs₂ k "id" v (Ne.symm h3),
      jLookup_insert_ne fs₁ fs₂ k "network" v (Ne.symm h4),
      jLookup_insert_ne fs₁ fs₂ k "nmi" v (Ne.symm h5),
      jLookup_insert_ne fs₁ fs₂ k "status" v (Ne.symm h6)]
  · intro fs k hk hnone
    simp only [siteDetailsKeys, List.mem_cons, List.not_mem_nil, or_false] at hk
    rcases hk with rfl | rfl | rfl | rfl | rfl | rfl
    · simp only [decodeSiteDetails]; rw [hnone]
      exact decodeSiteFields_none₁ _ _ _ _ _
    · simp only [decodeSiteDetails]; rw [hnone]
      exact decodeSiteFields_none₂ _ _ _ _ _
    · simp only [decodeSiteDetails]; rw [hnone]
      exact decodeSiteFields_none₃ _ _ _ _ _
    · simp only [decodeSiteDetails]; rw [hnone]
      exact decodeSiteFields_none₄ _ _ _ _ _
    · simp only [decodeSiteDetails]; rw [hnone]
      exact decodeSiteFields_none₅ _ _ _ _ _
    · simp only [decodeSiteDetails]; rw [hnone]
      exact decodeSiteFields_none₆ _ _ _ _ _

/-- C6 witness: an unknown key `extra` is ignored on a complete record,
and removing `id` makes decoding fail. -/
theorem c6_witness :
    ("extra" ∉ siteDetailsKeys ∧
      decodeSiteDetails (Json.obj ([] ++ ("extra", Json.null) :: sampleSiteFields)) =
        decodeSiteDetails (Json.obj ([] ++ sampleSiteFields))) ∧
    ("id" ∈ siteDetailsKeys ∧
      jLookup [("status", Json.str "ok")] "id" = none ∧
      decodeSiteDetails (Json.obj [("status", Json.str "ok")]) = none) :=
  ⟨⟨by decide,
    c6_unknown_ignored_missing_fails.1 "extra" Json.null [] sampleSiteFields
      (by decide)⟩,
   ⟨by decide, rfl,
    c6_unknown_ignored_missing_fails.2 [("status", Json.str "ok")] "id"
      (by decide) rfl⟩⟩

/-- C7: the three explicitly set headers are the literal names
`AUTHORIZATION`, `CONTENT_TYPE` and `ACCEPT`.  Header names compare
case-insensitively, so the first and third are the claimed `Authorization`
and `Accept`; but `CONTENT_TYPE` (underscore) is not the claimed
`Content-Type` header — the request carries no `Content-Type` at all. -/
theorem c7_request_headers :
    (buildRequest sampleClient).headers =
      [("AUTHORIZATION", "Bearer tok"), ("CONTENT_TYPE", "application/json"),
       ("ACCEPT", "application/json")] ∧
    headerNameEq "AUTHORIZATION" "Authorization" ∧
    headerNameEq "ACCEPT" "Accept" ∧
    ¬ headerNameEq "CONTENT_TYPE" "Content-Type" ∧
    (buildRequest sampleClient).headers.all
      (fun h => ¬ headerNameEq h.1 "Content-Type") :=
  ⟨rfl, by decide, by decide, by decide, by decide⟩

/-- C8: whichever fetch step first returns an error, `runMain` surfaces
exactly that error and the request trace contains only the requests of the
completed steps — no later request is issued. -/
theorem c8_error_aborts_later_steps (net : Net) (base_url auth_token : String) :
    (∀ e,
        (mainGetSiteData (RestClient.new_client (sites_url base_url) auth_token)
            net).2 = Except.error e →
        runMain net base_url auth_token =
          ([buildRequest (RestClient.new_client (sites_url base_url) auth_token)],
           MainOutcome.error e)) ∧
    (∀ sites site e,
        (mainGetSiteData (RestClient.new_client (sites_url base_url) auth_token)
            net).2 = Except.ok sites →
        sites[0]? = some site →
        ((RestClient.new_client (current_price_url base_url site.id)
            auth_token).get_current_price_data net).2 = Except.error e →
        runMain net base_url auth_token =
          ([buildRequest (RestClient.new_client (sites_url base_url) auth_token),
            buildRequest (RestClient.new_client (current_price_url base_url site.id)
              auth_token)],
           MainOutcome.error e)) ∧
    (∀ sites site prices price e,
        (mainGetSiteData (RestClient.new_client (sites_url base_url) auth_token)
            net).2 = Except.ok sites →
        sites[0]? = some site →
        ((RestClient.new_client (current_price_url base_url site.id)
            auth_token).get_current_price_data net).2 = Except.ok prices →
        prices[0]? = some price →
        ((RestClient.new_client (usage_data_url base_url site.id)
            auth_token).get_usage_data net).2 = Except.error e →
        runMain net base_url auth_token =
          ([buildRequest (RestClient.new_client (sites_url base_url) auth_token),
            buildRequest (RestClient.new_client (current_price_url base_url site.id)
              auth_token),
            buildRequest (RestClient.new_client (usage_data_url base_url site.id)
              auth_token)],
           MainOutcome.error e)) := by
  refine ⟨?_, ?_, ?_⟩
  · intro e h
    simp [runMain, h]
  · intro sites site e h1 h2 h3
    simp [runMain, h1, h2, h3]
  · intro sites site prices price e h1 h2 h3 h4 h5
    simp [runMain, h1, h2, h3, h4, h5]

set_option maxRecDepth 16384 in
/-- C8 witness: sites succeed with one record, the price request fails at
the transport; `runMain` surfaces that transport error and issues no usage
request. -/
theorem c8_witness :
    (mainGetSiteData (RestClient.new_client (sites_url "B") "T") netSitesOnly).2 =
      Except.ok [sampleSite] ∧
    [sampleSite][0]? = some sampleSite ∧
    ((RestClient.new_client (current_price_url "B" sampleSite.id)
        "T").get_current_price_data netSitesOnly).2 =
      Except.error (Error.ReqwestError
        (ReqwestErr.transport (current_price_url "B" sampleSite.id))) ∧
    runMain netSitesOnly "B" "T" =
      ([buildRequest (RestClient.new_client (sites_url "B") "T"),
        buildRequest (RestClient.new_client (current_price_url "B" sampleSite.id)
          "T")],
       MainOutcome.error (Error.ReqwestError
        (ReqwestErr.transport (current_price_url "B" sampleSite.id)))) :=
  ⟨rfl, rfl, rfl,
   (c8_error_aborts_later_steps netSitesOnly "B" "T").2.1 [sampleSite]
     sampleSite _ rfl rfl rfl⟩

/-- C9: a JSON `duration` value outside 0..=255 makes both the
`CurrentPrices` and the `CurrentUsage` record fail to decode, because the
field is a Rust `u8`. -/
theorem c9_duration_u8_bounds (fs : List (String × Json)) (n : Int)
    (hdur : jLookup fs "duration" = some (Json.num n))
    (hn : n < 0 ∨ 255 < n) :
    decodeCurrentPrices (Json.obj fs) = none ∧
    decodeCurrentUsage (Json.obj fs) = none := by
  have hu : decodeU8 (jLookup fs "duration") = none := by
    rw [hdur]
    simp only [decodeU8]
    rw [if_neg (by omega)]
  constructor
  · simp only [decodeCurrentPrices]
    rw [hu]
  · simp only [decodeCurrentUsage]
    rw [hu]

/-- C9 witness: `durationMinutes = 300` fails both decoders. -/
theorem c9_witness :
    jLookup [("duration", Json.num 300)] "duration" = some (Json.num 300) ∧
    ((300 : Int) < 0 ∨ (255 : Int) < 300) ∧
    decodeCurrentPrices (Json.obj [("duration", Json.num 300)]) = none ∧
    decodeCurrentUsage (Json.obj [("duration", Json.num 300)]) = none :=
  ⟨rfl, Or.inr (by norm_num),
   (c9_duration_u8_bounds [("duration", Json.num 300)] 300 rfl
     (Or.inr (by norm_num))).1,
   (c9_duration_u8_bounds [("duration", Json.num 300)] 300 rfl
     (Or.inr (by norm_num))).2⟩

/-- C10: each fetch operation hands back the client with `url`,
`auth_token` and the transport handle untouched, whatever the network
does. -/
theorem c10_client_frame (c : RestClient) (net : Net) :
    (c.get_site_data net).1 = c ∧
    (c.get_current_price_data net).1 = c ∧
    (c.get_usage_data net).1 = c := by
  refine ⟨?_, ?_, ?_⟩
  · unfold RestClient.get_site_data
    split
    · rfl
    · split
      · split <;> rfl
      · rfl
  · unfold RestClient.get_current_price_data
    split
    · rfl
    · split <;> rfl
  · unfold RestClient.get_usage_data
    split
    · rfl
    · split <;> rfl
